import Mathlib

/-
Verification of the scan -> sanitize -> score pipeline of src/app.py
(a single-page website scanner).  Python dictionaries holding
heterogeneous values are embedded as an inductive `Value`; fallible
Python code (code that can raise) is embedded in the `Except String`
monad, the error string standing for the exception text.  Machine
floats carry only small decimal constants here (0.0, 1.5, 8.0, 1000.0,
ratios of small integers), all exactly representable, so they are
modelled as rationals.
-/

/-- Embedded Python value: None, bool, int, float (as an exact rational),
str, list, and dict (an insertion-ordered association list, as Python
dicts are insertion ordered and never hold duplicate keys). -/
inductive Value where
  | none : Value
  | bool : Bool → Value
  | int : Int → Value
  | float : ℚ → Value
  | str : String → Value
  | list : List Value → Value
  | dict : List (String × Value) → Value

/-- Python truthiness: None, False, 0, 0.0, "", [], {} are falsy. -/
def Value.truthy : Value → Bool
  | .none => false
  | .bool b => b
  | .int n => n != 0
  | .float q => q.num != 0
  | .str s => s != ""
  | .list l => !l.isEmpty
  | .dict l => !l.isEmpty

/-- isinstance(v, dict) as a Bool. -/
def Value.isDict : Value → Bool
  | .dict _ => true
  | _ => false

/-- Dictionary key lookup (first occurrence). -/
def vget : List (String × Value) → String → Option Value
  | [], _ => Option.none
  | (k', v) :: t, k => if k' = k then some v else vget t k

/-- Python `d[k] = v`: overwrite in place if the key exists (keeping its
position, as Python dicts do), else append at the end. -/
def setKey : List (String × Value) → String → Value → List (String × Value)
  | [], k, v => [(k, v)]
  | (k', w) :: t, k, v => if k' = k then (k', v) :: t else (k', w) :: setKey t k v

/-- Python `d.setdefault(k, v)` (the updated dict): insert at the end only
if the key is absent. -/
def sdKey (l : List (String × Value)) (k : String) (v : Value) : List (String × Value) :=
  if (vget l k).isSome then l else l ++ [(k, v)]

/-- Read a two-level path section.key out of a record (used only to state
theorems about records). -/
def getPath (d : Value) (s k : String) : Option Value :=
  match d with
  | .dict l =>
    match vget l s with
    | some (.dict m) => vget m k
    | _ => Option.none
  | _ => Option.none

/-- Read the `issues` list of a record (used only to state theorems). -/
def getIssues (d : Value) : Option (List Value) :=
  match d with
  | .dict l =>
    match vget l "issues" with
    | some (.list xs) => some xs
    | _ => Option.none
  | _ => Option.none

/-- Look a category up in a returned score set (used only to state
theorems). -/
def scoreOf : List (String × Int) → String → Option Int
  | [], _ => Option.none
  | (k', n) :: t, k => if k' = k then some n else scoreOf t k

/-- The concrete Python types that appear in the program. -/
inductive PyType where
  | noneT | boolT | intT | floatT | strT | listT | dictT

/-- Python `type(v)`. -/
def pyTypeOf : Value → PyType
  | .none => .noneT
  | .bool _ => .boolT
  | .int _ => .intT
  | .float _ => .floatT
  | .str _ => .strT
  | .list _ => .listT
  | .dict _ => .dictT

/-- Python `isinstance(v, t)` for a concrete type `t`.  `bool` is a
subclass of `int`, so a bool is an instance of `int`; an int is NOT an
instance of `float`. -/
def isinst (v : Value) (t : PyType) : Bool :=
  match v, t with
  | .none, .noneT => true
  | .bool _, .boolT => true
  | .bool _, .intT => true
  | .int _, .intT => true
  | .float _, .floatT => true
  | .str _, .strT => true
  | .list _, .listT => true
  | .dict _, .dictT => true
  | _, _ => false

/-- Python `isinstance(v, (int, float))`. -/
def isNumeric (v : Value) : Bool :=
  isinst v .intT || isinst v .floatT

/-- Numeric view of a value (bools count as 0/1 in Python arithmetic
and comparisons). -/
def ratOf : Value → Option ℚ
  | .bool b => some (if b then 1 else 0)
  | .int n => some (n : ℚ)
  | .float q => some q
  | _ => Option.none

/-- Python `v < c` for a numeric constant `c`; raises TypeError on a
non-numeric left operand. -/
def pyLtQ (v : Value) (c : ℚ) : Except String Bool :=
  match ratOf v with
  | some q => .ok (decide (q < c))
  | Option.none => .error "TypeError: unsupported comparison"

/-- Python `v > c` for a numeric constant `c`; raises TypeError on a
non-numeric left operand. -/
def pyGtQ (v : Value) (c : ℚ) : Except String Bool :=
  match ratOf v with
  | some q => .ok (decide (c < q))
  | Option.none => .error "TypeError: unsupported comparison"

/-- Exact rational division x / y for y ≠ 0, written on numerators and
denominators (Rat.divInt) so it reduces definitionally. -/
def qdiv (x y : ℚ) : ℚ :=
  Rat.divInt (x.num * (y.den : Int)) (y.num * (x.den : Int))

/-- Python true division `a / b`. -/
def pyDiv (a b : Value) : Except String ℚ :=
  match ratOf a, ratOf b with
  | some x, some y => if y.num = 0 then .error "ZeroDivisionError" else .ok (qdiv x y)
  | _, _ => .error "TypeError: unsupported operand types for division"

/-- Python `len(v)`: defined on str, list and dict; TypeError otherwise. -/
def pyLen (v : Value) : Except String Nat :=
  match v with
  | .str s => .ok s.length
  | .list l => .ok l.length
  | .dict l => .ok l.length
  | _ => .error "TypeError: object has no length"

/-- Python `l[k]` on a dict: KeyError when absent. -/
def pyItem (l : List (String × Value)) (k : String) : Except String Value :=
  match vget l k with
  | some v => .ok v
  | Option.none => .error "KeyError"

/-- Python `v[k]`: TypeError when `v` is not a dict. -/
def pySubscript (v : Value) (k : String) : Except String Value :=
  match v with
  | .dict m => pyItem m k
  | _ => .error "TypeError: object is not subscriptable"

/-- Python `v.get(k, dflt)`: AttributeError when `v` is not a dict. -/
def pyGet (v : Value) (k : String) (dflt : Value) : Except String Value :=
  match v with
  | .dict m => .ok ((vget m k).getD dflt)
  | _ => .error "AttributeError: object has no attribute get"

/-- One entry of the scoring rubric: the five ranked recommendation
strings, with an optional weight (two shapes occur in the source: a
dict carrying scores and weight, or a bare 5-element list). -/
inductive Rubric where
  | weighted (scores : List String) (weight : ℚ)
  | plain (scores : List String)

/-- The CATEGORIES rubric table of src/app.py lines 39-102: exactly 8
categories. -/
def CATEGORIES : List (String × Rubric) :=
  [("First Impressions & Branding", .weighted
      ["Lacks professional design and messaging. Recommend full redesign.",
       "Unclear offer. Suggest branding update, clearer value prop, and trust elements.",
       "Decent design, but needs polish. Recommend refining layout and visuals.",
       "Strong branding with minor design updates suggested.",
       "Excellent branding. No improvements needed."] (6/5)),
   ("User Experience (UX)", .weighted
      ["Confusing journey. Full UX overhaul needed.",
       "Navigation and flow inconsistent. Suggest restructuring.",
       "Usable, but some friction. Recommend usability testing.",
       "Good UX with minor friction points. Suggest tweaks.",
       "Excellent UX. No changes needed."] (13/10)),
   ("Performance & Speed", .plain
      ["Extremely slow. Recommend full optimization (hosting, images, scripts).",
       "Slow load times. Suggest compressing assets and optimizing code.",
       "Acceptable speed. Room for improvement with lazy loading/CDN.",
       "Good performance with small issues to address.",
       "Excellent performance. No changes needed."]),
   ("Mobile Responsiveness", .plain
      ["Poor experience on mobile. Recommend responsive redesign.",
       "Major mobile issues. Redesign mobile layout and fix touch elements.",
       "Responsive but with usability gaps. Suggest mobile-specific adjustments.",
       "Good responsiveness. Test and refine further.",
       "Perfect mobile design. No improvements needed."]),
   ("SEO & Visibility", .plain
      ["No SEO foundations. Recommend full setup (meta, sitemap, schema).",
       "Minimal SEO. Recommend on-page SEO and metadata improvements.",
       "Basic SEO setup. Recommend keyword and content optimization.",
       "Good SEO. Suggest content strategy enhancements.",
       "Excellent SEO. No improvements needed."]),
   ("Security & Compliance", .plain
      ["No HTTPS or compliance. Urgent fixes needed (SSL, policy, updates).",
       "Basic security but missing compliance features. Recommend updates.",
       "Secure but outdated components. Suggest plugin/CMS updates.",
       "Secure with minor improvements needed.",
       "Fully secure and compliant. No changes needed."]),
   ("Accessibility", .plain
      ["No accessibility. Recommend WCAG audit and full compliance plan.",
       "Major issues (contrast, keyboard nav). Recommend improvements.",
       "Some basics present. Suggest screen reader and contrast review.",
       "Mostly compliant. Suggest accessibility testing tools.",
       "Fully compliant and accessible. Great work!"]),
   ("Analytics & Conversions", .plain
      ["No tracking. Recommend GA4, goal setup, CRM integration.",
       "Basic analytics only. Add events and conversion goals.",
       "Some tracking in place. Recommend UTM and funnel tracking.",
       "Well-tracked site. Suggest dashboards and heatmaps.",
       "Excellent analytics. Fully optimized."])]

/-- The catalog key set of CATEGORIES. -/
def categoryNames : List String := CATEGORIES.map Prod.fst

/-- initialize_results (src/app.py lines 104-143); the timestamp
datetime.now().isoformat() is a parameter `ts`. -/
def initializeResults (ts : String) : Value :=
  .dict
    [("basic", .dict [("load_time", .float 0), ("scan_timestamp", .str ts)]),
     ("meta", .dict
        [("title", .str ""), ("title_length", .int 0), ("description", .str ""),
         ("viewport", .bool false), ("has_favicon", .bool false), ("canonical", .str ""),
         ("og_tags", .dict [])]),
     ("resources", .dict [("images", .int 0), ("stylesheets", .int 0), ("scripts", .int 0)]),
     ("performance", .dict
        [("page_size_kb", .float 0), ("requests", .int 0), ("dom_elements", .int 0),
         ("dom_depth", .int 0)]),
     ("security", .dict
        [("https", .bool false), ("hsts", .bool false), ("content_security_policy", .bool false),
         ("x_frame_options", .bool false)]),
     ("accessibility", .dict
        [("alt_text_images", .int 0), ("lang_attribute", .bool false),
         ("aria_attributes", .int 0)]),
     ("issues", .list [])]

/-- Prefix test on character lists (Lean's byte-position-based String
functions are avoided so everything reduces definitionally). -/
def charsPrefix : List Char → List Char → Bool
  | [], _ => true
  | _ :: _, [] => false
  | p :: ps, c :: cs => p = c && charsPrefix ps cs

/-- Python str whitespace for strip(): space, tab, newline, carriage
return, vertical tab, form feed (the ASCII cases). -/
def pySpace (c : Char) : Bool :=
  c = ' ' || c = Char.ofNat 9 || c = Char.ofNat 10 || c = Char.ofNat 13 ||
  c = Char.ofNat 11 || c = Char.ofNat 12

/-- Python s.strip() with no argument: drop whitespace from both ends. -/
def pyStrip (s : String) : String :=
  String.mk ((((s.data.dropWhile pySpace).reverse).dropWhile pySpace).reverse)

/-- `u.startswith(('http://', 'https://'))` (line 151). -/
def startsHttp (u : String) : Bool :=
  charsPrefix "http://".data u.data || charsPrefix "https://".data u.data

/-- The scheme of urlparse(u), for the strings validate_url actually
parses: validate_url always parses a string it has just checked or made
to start with http:// or https://, so only that case is modelled. -/
def urlScheme (u : String) : String :=
  if charsPrefix "http://".data u.data then "http"
  else if charsPrefix "https://".data u.data then "https"
  else ""

/-- The netloc of urlparse(u) for http(s)-prefixed strings: everything
after the // up to the first /, ? or #. -/
def urlNetloc (u : String) : String :=
  let rest :=
    if charsPrefix "http://".data u.data then u.data.drop 7
    else if charsPrefix "https://".data u.data then u.data.drop 8
    else []
  String.mk (rest.takeWhile (fun c => !(c = '/' || c = '?' || c = '#')))

/-- html.escape on one character (quote=True, the default): the five
special characters, in the only order observable per character. -/
def htmlEscapeChar (c : Char) : List Char :=
  if c = '&' then "&amp;".data
  else if c = '<' then "&lt;".data
  else if c = '>' then "&gt;".data
  else if c = '"' then "&quot;".data
  else if c = Char.ofNat 39 then "&#x27;".data
  else [c]

/-- html.escape(s) with quote=True (the default used at line 162). -/
def htmlEscape (s : String) : String :=
  String.mk (List.foldr (fun c acc => htmlEscapeChar c ++ acc) [] s.data)

/-- validate_url (src/app.py lines 145-165).  The emptiness test runs
BEFORE strip(); the try block re-raises any inner ValueError as
"Invalid URL: ...".  The argument is always a string at the call sites,
so the isinstance branch of line 147 is vacuous. -/
def validateUrl (url : String) : Except String String :=
  if url = "" then .error "URL cannot be empty"
  else
    let u := pyStrip url
    let u := if startsHttp u then u else "https://" ++ u
    if urlScheme u = "" || urlNetloc u = "" then
      .error "Invalid URL: Invalid URL structure"
    else if !(urlNetloc u).data.contains '.' || (urlNetloc u).length < 4 then
      .error "Invalid URL: Invalid domain format"
    else .ok (htmlEscape u)

/-- The signals the HTML-parsing block of scan_website (lines 223-257)
computes from the parsed soup.  The structural parser (BeautifulSoup)
is an external collaborator, so its per-page output is a parameter:
each field holds the value the corresponding pure soup expression of
the source yields.  `titleText` is `some t` when `soup.title` is truthy
(line 227), `t` being `soup.title.string or ''`. -/
structure ExtractedSignals where
  titleText : Option String
  description : String
  viewport : Bool
  hasFavicon : Bool
  canonical : String
  altTextImages : Nat
  langAttribute : Bool
  ariaAttributes : Nat
  images : Nat
  stylesheets : Nat
  scripts : Nat

/-- Outcome of safe_html_parse plus the extraction block: either the
extracted signals, or an exception caught at line 259 before any field
was assigned (the decode/parse failing first, the typical case). -/
inductive ParseOutcome where
  | ok (sig : ExtractedSignals)
  | err (msg : String)

/-- A completed HTTP response as scan_website consumes it: elapsed
seconds at line 218, len(content), response.url, and the set of
response header names (lowercased; requests matches header names
case-insensitively). -/
structure HttpSuccess where
  elapsed : ℚ
  contentBytes : Nat
  finalUrl : String
  headerNames : List String
  parse : ParseOutcome

/-- Outcome of the network transport: a completed 2xx response, or a
requests.exceptions.RequestException (timeout, connection error,
redirect limit, or the non-2xx raise_for_status of line 215) with the
elapsed seconds measured at line 267. -/
inductive FetchOutcome where
  | success (resp : HttpSuccess)
  | requestError (msg : String) (elapsed : ℚ)

/-- Write results[s][k] = v on a record whose section s exists as a
dict (always the case for the records scan_website builds from
initialize_results); identity otherwise. -/
def setPath (d : Value) (s k : String) (v : Value) : Value :=
  match d with
  | .dict l =>
    match vget l s with
    | some (.dict m) => .dict (setKey l s (.dict (setKey m k v)))
    | _ => d
  | _ => d

/-- results['issues'].append(msg) on a record whose issues field is a
list (always the case here); identity otherwise. -/
def appendIssue (d : Value) (msg : String) : Value :=
  match d with
  | .dict l =>
    match vget l "issues" with
    | some (.list xs) => .dict (setKey l "issues" (.list (xs ++ [.str msg])))
    | _ => d
  | _ => d

/-- One step of the required_keys pass of scan_website (lines 192-196):
if results[s].get(k) is not an int or float, set it to the default.
The record it runs on is freshly initialized, so its sections are
dicts; the non-dict fallback (where Python's .get would raise) is
unreachable identity. -/
def numFix (l : List (String × Value)) (s k : String) (dflt : Value) :
    List (String × Value) :=
  match vget l s with
  | some (.dict m) =>
    match vget m k with
    | some v => if isNumeric v then l else setKey l s (.dict (setKey m k dflt))
    | Option.none => setKey l s (.dict (setKey m k dflt))
  | _ => l

/-- The required_keys loop of scan_website (lines 188-196), unrolled
over its literal table in source order: performance (page_size_kb,
requests, dom_depth), then basic (load_time). -/
def requiredKeysFix (d : Value) : Value :=
  match d with
  | .dict l =>
    let l := sdKey l "performance" (.dict [])
    let l := numFix l "performance" "page_size_kb" (.float 0)
    let l := numFix l "performance" "requests" (.int 0)
    let l := numFix l "performance" "dom_depth" (.int 0)
    let l := sdKey l "basic" (.dict [])
    let l := numFix l "basic" "load_time" (.float 0)
    .dict l
  | _ => d

/-- The field assignments of the extraction block (lines 227-257), in
source order, applied to the results record. -/
def applySignals (r : Value) (sig : ExtractedSignals) (headerNames : List String) : Value :=
  let r := match sig.titleText with
    | some t =>
        setPath (setPath r "meta" "title" (.str t)) "meta" "title_length" (.int (t.length : Int))
    | Option.none => r
  let r := setPath r "meta" "description" (.str sig.description)
  let r := setPath r "meta" "viewport" (.bool sig.viewport)
  let r := setPath r "meta" "has_favicon" (.bool sig.hasFavicon)
  let r := setPath r "meta" "canonical" (.str sig.canonical)
  let r := setPath r "accessibility" "alt_text_images" (.int (sig.altTextImages : Int))
  let r := setPath r "accessibility" "lang_attribute" (.bool sig.langAttribute)
  let r := setPath r "accessibility" "aria_attributes" (.int (sig.ariaAttributes : Int))
  let r := setPath r "resources" "images" (.int (sig.images : Int))
  let r := setPath r "resources" "stylesheets" (.int (sig.stylesheets : Int))
  let r := setPath r "resources" "scripts" (.int (sig.scripts : Int))
  let r := setPath r "security" "hsts" (.bool (headerNames.contains "strict-transport-security"))
  let r := setPath r "security" "content_security_policy"
    (.bool (headerNames.contains "content-security-policy"))
  setPath r "security" "x_frame_options" (.bool (headerNames.contains "x-frame-options"))

/-- The final validation of scan_website (lines 270-275): setdefault
performance to {}, read page_size_kb with default 0.0 (a float, so a
MISSING key passes the isinstance test and is left missing), and force
it to 0.0 only when present with a non-numeric value. -/
def finalPageSizeCheck (d : Value) : Value :=
  match d with
  | .dict l =>
    let l := sdKey l "performance" (.dict [])
    match vget l "performance" with
    | some (.dict m) =>
      (match vget m "page_size_kb" with
       | some v =>
          if isNumeric v then .dict l
          else .dict (setKey l "performance" (.dict (setKey m "page_size_kb" (.float 0))))
       | Option.none => .dict l)
    | _ => .dict l
  | _ => d

/-- The value scan_website returns: a dict with status, an optional
message (the error branch of line 283), and the results record. -/
structure ScanOutcome where
  status : String
  message : Option String
  data : Value

/-- scan_website (src/app.py lines 184-283).  The wall clock and the
network are external: `ts` is the timestamp of initialize_results, and
`transport` maps the URL actually passed to session.get (line 208) to
the outcome of the request.  The outer except at line 279 is reachable
only through validate_url failing at line 199, since the request branch
catches RequestException locally (line 264) and the parse branch
catches its exceptions locally (line 259). -/
def scanWebsite (url ts : String) (transport : String → FetchOutcome) : ScanOutcome :=
  let results := requiredKeysFix (initializeResults ts)
  match validateUrl url with
  | .error e =>
      { status := "error", message := some e,
        data := setPath (appendIssue results ("Scan error: " ++ e))
          "performance" "page_size_kb" (.float 0) }
  | .ok validated =>
    match transport validated with
    | .requestError msg elapsed =>
        { status := "success", message := Option.none,
          data := finalPageSizeCheck
            (setPath
              (setPath (appendIssue results ("Request failed: " ++ msg))
                "basic" "load_time" (.float elapsed))
              "performance" "page_size_kb" (.float 0)) }
    | .success resp =>
        let r := setPath results "basic" "load_time" (.float resp.elapsed)
        let r := setPath r "performance" "page_size_kb"
          (.float (Rat.divInt (resp.contentBytes : Int) 1024))
        let r := setPath r "security" "https"
          (.bool (charsPrefix "https://".data resp.finalUrl.data))
        let r := match resp.parse with
          | .ok sig => applySignals r sig resp.headerNames
          | .err m => appendIssue r ("HTML parsing error: " ++ m)
        { status := "success", message := Option.none, data := finalPageSizeCheck r }

/-- The load_time accumulator contribution of auto_score_website
(lines 337-345): < 1.5 gives 4, elif < 3 gives 3, elif < 5 gives 2,
elif < 8 gives 1, else 0. -/
def loadTimePoints (v : Value) : Except String Int :=
  Except.bind (pyLtQ v (mkRat 3 2)) fun b1 =>
  if b1 then .ok 4 else
  Except.bind (pyLtQ v 3) fun b2 =>
  if b2 then .ok 3 else
  Except.bind (pyLtQ v 5) fun b3 =>
  if b3 then .ok 2 else
  Except.bind (pyLtQ v 8) fun b4 =>
  if b4 then .ok 1 else .ok 0

/-- The page_size accumulator contribution (lines 347-351): < 300 gives
2, elif < 800 gives 1, else 0. -/
def pageSizePoints (v : Value) : Except String Int :=
  Except.bind (pyLtQ v 300) fun b1 =>
  if b1 then .ok 2 else
  Except.bind (pyLtQ v 800) fun b2 =>
  if b2 then .ok 1 else .ok 0

/-- The requests accumulator contribution (lines 353-357): < 15 gives 2,
elif < 30 gives 1, else 0. -/
def requestsPoints (v : Value) : Except String Int :=
  Except.bind (pyLtQ v 15) fun b1 =>
  if b1 then .ok 2 else
  Except.bind (pyLtQ v 30) fun b2 =>
  if b2 then .ok 1 else .ok 0

/-- The dom_depth accumulator contribution (lines 359-363): < 15 gives
1, elif > 30 gives -1, else 0. -/
def domDepthPoints (v : Value) : Except String Int :=
  Except.bind (pyLtQ v 15) fun b1 =>
  if b1 then .ok 1 else
  Except.bind (pyGtQ v 30) fun b2 =>
  if b2 then .ok (-1) else .ok 0

/-- Models `score += n if v else 0` (a conditional increment guarded by
Python truthiness). -/
def truthyPts (v : Value) (n : Int) : Int :=
  if v.truthy then n else 0

/-- Models `score += n if b else 0` for an already-computed comparison. -/
def boolPts (b : Bool) (n : Int) : Int :=
  if b then n else 0

/-- Models `if v and lo <= len(v) <= hi: score += 2` (lines 382-389):
`and` short-circuits, so len - which can raise TypeError - only runs on
a truthy value. -/
def seoLenPts (v : Value) (lo hi : Nat) : Except String Int :=
  if v.truthy then
    Except.bind (pyLen v) fun n => .ok (if lo ≤ n ∧ n ≤ hi then 2 else 0)
  else .ok 0

/-- Models the alt-text ratio block (lines 451-458): only when
total_images > 0, ratio = alt/total; > 0.9 gives 2, elif > 0.5 gives
1. -/
def altRatioPts (alt total : Value) : Except String Int :=
  Except.bind (pyGtQ total 0) fun pos =>
  if pos then
    Except.bind (pyDiv alt total) fun ratio =>
    .ok (if ratio > mkRat 9 10 then 2 else if ratio > mkRat 1 2 then 1 else 0)
  else .ok 0

/-- Python `l[s].setdefault(k, v)` for the nested defaults loop of
auto_score_website (line 316): AttributeError when the existing section
value is not a dict; the section itself is always present because the
loop setdefaults it first. -/
def nestedSetdefault (l : List (String × Value)) (s k : String) (v : Value) :
    Except String (List (String × Value)) :=
  match vget l s with
  | some (.dict m) => .ok (setKey l s (.dict (sdKey m k v)))
  | some _ => .error "AttributeError: object has no attribute setdefault"
  | Option.none => .error "KeyError"

/-- The special page_size_kb handling of auto_score_website (lines
310-314): current = performance.get(key); when it is not an int or a
float, overwrite with float(1000.0). -/
def pageSizeFix (l : List (String × Value)) : Except String (List (String × Value)) :=
  match vget l "performance" with
  | some (.dict m) =>
    (match vget m "page_size_kb" with
     | some v =>
        if isNumeric v then .ok l
        else .ok (setKey l "performance" (.dict (setKey m "page_size_kb" (.float 1000))))
     | Option.none =>
        .ok (setKey l "performance" (.dict (setKey m "page_size_kb" (.float 1000)))))
  | some _ => .error "AttributeError: object has no attribute get"
  | Option.none => .error "KeyError"

/-- The required_sections loop of auto_score_website (lines 293-316),
unrolled over its literal table in source order: each section is
setdefaulted to {}, then each field default is setdefaulted into it -
except page_size_kb, which is force-reset when non-numeric.  Plain
setdefault leaves a PRESENT wrong-typed value (such as a string
load_time) untouched. -/
def applyRequired (l0 : List (String × Value)) : Except String (List (String × Value)) :=
  Except.bind (nestedSetdefault (sdKey l0 "basic" (.dict [])) "basic" "load_time" (.float 8))
    fun l1 =>
  Except.bind (pageSizeFix (sdKey l1 "performance" (.dict []))) fun l2 =>
  Except.bind (nestedSetdefault l2 "performance" "requests" (.int 30)) fun l3 =>
  Except.bind (nestedSetdefault l3 "performance" "dom_depth" (.int 20)) fun l4 =>
  .ok (sdKey (sdKey (sdKey (sdKey l4 "security" (.dict []))
    "meta" (.dict [])) "accessibility" (.dict [])) "resources" (.dict []))

/-- The scoring body of auto_score_website (lines 318-470) after the
defaults loop, on the (possibly updated) record entries `l`: local
section reads, the seven per-category scores in assignment order, and
the returned pair of the record (which the Python function has mutated
in place) and the scores dict.  response_text is None at the single
call site (line 772), so the Content Quality branch (lines 432-443)
never runs and content_score stays 3. -/
def scoringPart (l : List (String × Value)) : Except String (Value × List (String × Int)) :=
  Except.bind (pyItem l "basic") fun basic =>
  Except.bind (pyItem l "performance") fun perf =>
  Except.bind (pyItem l "security") fun security =>
  Except.bind (pyItem l "meta") fun meta =>
  Except.bind (pyItem l "accessibility") fun accessibility =>
  Except.bind (pyItem l "resources") fun resources =>
  Except.bind (pySubscript basic "load_time") fun load_time =>
  Except.bind (pySubscript perf "page_size_kb") fun page_size =>
  Except.bind (pySubscript perf "requests") fun requests =>
  Except.bind (pySubscript perf "dom_depth") fun dom_depth =>
  Except.bind (loadTimePoints load_time) fun ltp =>
  Except.bind (pageSizePoints page_size) fun psp =>
  Except.bind (requestsPoints requests) fun rqp =>
  Except.bind (domDepthPoints dom_depth) fun ddp =>
  Except.bind (pyGet security "https" (.bool false)) fun https =>
  Except.bind (pyGet security "hsts" (.bool false)) fun hsts =>
  Except.bind (pyGet security "content_security_policy" (.bool false)) fun csp =>
  Except.bind (pyGet security "x_frame_options" (.bool false)) fun xfo =>
  Except.bind (pyGet meta "title" (.str "")) fun title =>
  Except.bind (seoLenPts title 30 60) fun titlePts =>
  Except.bind (pyGet meta "description" (.str "")) fun description =>
  Except.bind (seoLenPts description 50 160) fun descPts =>
  Except.bind (pyGet meta "viewport" (.bool false)) fun viewport =>
  Except.bind (pyGet meta "canonical" (.str "")) fun canonical =>
  Except.bind (pyGet meta "og_tags" (.dict [])) fun og_tags =>
  Except.bind (pyGet resources "stylesheets" (.int 0)) fun stylesheets =>
  Except.bind (pyGtQ stylesheets 0) fun ssPos =>
  Except.bind (pyGet meta "has_favicon" (.bool false)) fun has_favicon =>
  Except.bind (pyGet resources "images" (.int 0)) fun total_images =>
  Except.bind (pyGet accessibility "alt_text_images" (.int 0)) fun alt_images =>
  Except.bind (altRatioPts alt_images total_images) fun altPts =>
  Except.bind (pyGet accessibility "lang_attribute" (.bool false)) fun lang =>
  Except.bind (pyGet accessibility "aria_attributes" (.int 0)) fun aria =>
  Except.bind (pyGtQ aria 0) fun ariaPos =>
  .ok (Value.dict l,
    [("Performance & Speed", min (max 1 (Int.fdiv (ltp + psp + rqp + ddp) 2)) 5),
     ("Security & Compliance",
        min (1 + truthyPts https 3 + truthyPts hsts 1 + truthyPts csp 1 + truthyPts xfo 1) 5),
     ("SEO & Visibility",
        min (1 + titlePts + descPts + truthyPts viewport 1 + truthyPts canonical 1
          + truthyPts og_tags 1) 5),
     ("Mobile Responsiveness", min (1 + truthyPts viewport 3 + boolPts ssPos 1) 5),
     ("First Impressions & Branding",
        min (2 + truthyPts has_favicon 1 + truthyPts title 1 + truthyPts description 1) 5),
     ("Content Quality", min (max 1 3) 5),
     ("Accessibility",
        min (1 + altPts + truthyPts lang 1 + boolPts ariaPos 1) 5)])

/-- auto_score_website (src/app.py lines 285-470) with response_text at
its default None, as at its single call site.  A non-dict argument is
replaced by a fresh initialize_results() (line 290), whose timestamp is
the parameter `ts`.  The returned pair holds the record the function
leaves behind (it mutates its dict argument in place) and the scores. -/
def autoScoreWebsite (d : Value) (ts : String) : Except String (Value × List (String × Int)) :=
  match (if d.isDict then d else initializeResults ts) with
  | .dict l => Except.bind (applyRequired l) scoringPart
  | _ => .error "unreachable: initialize_results returns a dict"

/-- The section `s` of `l` is a dict holding every key of `ks` (used to
state the frame property of the scorer). -/
def sectionDictWithKeys (l : List (String × Value)) (s : String) (ks : List String) : Bool :=
  match vget l s with
  | some (.dict m) => ks.all (fun k => (vget m k).isSome)
  | _ => false

/-- performance.page_size_kb of `l` is present and numeric. -/
def pageSizeNumeric (l : List (String × Value)) : Bool :=
  match vget l "performance" with
  | some (.dict m) =>
    (match vget m "page_size_kb" with
     | some v => isNumeric v
     | Option.none => false)
  | _ => false

/-- A record already carrying everything the defaults loop of
auto_score_website could insert: basic.load_time present, performance
with page_size_kb (numeric), requests and dom_depth present, and the
security, meta, accessibility and resources sections present. -/
def hasScoringSkeleton (d : Value) : Bool :=
  match d with
  | .dict l =>
    sectionDictWithKeys l "basic" ["load_time"] &&
    sectionDictWithKeys l "performance" ["page_size_kb", "requests", "dom_depth"] &&
    pageSizeNumeric l &&
    (vget l "security").isSome && (vget l "meta").isSome &&
    (vget l "accessibility").isSome && (vget l "resources").isSome
  | _ => false

/-- One field check of ensure_defaults (lines 741-744): if the key is
absent, or present with a value that is not an instance of the
default's exact type, overwrite with the default. -/
def fixField (m : List (String × Value)) (k : String) (v : Value) : List (String × Value) :=
  match vget m k with
  | some w => if isinst w (pyTypeOf v) then m else setKey m k v
  | Option.none => setKey m k v

/-- The inner field loop of ensure_defaults over one section's default
table. -/
def fixFields (m : List (String × Value)) : List (String × Value) → List (String × Value)
  | [] => m
  | (k, v) :: fs => fixFields (fixField m k v) fs

/-- The defaults table of ensure_defaults (lines 730-737), in source
order. -/
def edDefaults : List (String × List (String × Value)) :=
  [("basic", [("load_time", .float 0)]),
   ("performance", [("page_size_kb", .float 0), ("requests", .int 0), ("dom_depth", .int 0)]),
   ("meta", [("viewport", .bool false), ("title", .str ""), ("description", .str "")]),
   ("resources", [("stylesheets", .int 0)]),
   ("security", [("https", .bool false)]),
   ("accessibility",
      [("alt_text_images", .int 0), ("aria_attributes", .int 0), ("lang_attribute", .bool false)])]

/-- The section loop of ensure_defaults (lines 738-744): sec =
scan_data.setdefault(section, {}) then the field loop mutating sec.  A
present non-dict section raises a TypeError at its first field test or
assignment (every section of the table has at least one field). -/
def ensureSections (l : List (String × Value)) :
    List (String × List (String × Value)) → Except String (List (String × Value))
  | [] => .ok l
  | (s, fs) :: rest =>
    match (vget l s).getD (.dict []) with
    | .dict m => ensureSections (setKey l s (.dict (fixFields m fs))) rest
    | _ => .error "TypeError: section is not a dict"

/-- ensure_defaults (src/app.py lines 728-746): mutates and returns
scan_data.  A non-dict argument raises AttributeError at the first
setdefault. -/
def ensureDefaults (scan_data : Value) : Except String Value :=
  match scan_data with
  | .dict l =>
    (match ensureSections l edDefaults with
     | .ok l' => .ok (.dict l')
     | .error e => .error e)
  | _ => .error "AttributeError: object has no attribute setdefault"

theorem vget_setKey_self (l : List (String × Value)) (k : String) (v : Value) :
    vget (setKey l k v) k = some v := by
  induction l with
  | nil => simp [setKey, vget]
  | cons hd t ih =>
      obtain ⟨k', w⟩ := hd
      by_cases h : k' = k
      · simp [setKey, h, vget]
      · simp [setKey, h, vget, ih]

theorem vget_setKey_ne (l : List (String × Value)) (k k2 : String) (v : Value)
    (hne : k2 ≠ k) : vget (setKey l k v) k2 = vget l k2 := by
  have hc : ∀ k' : String, k' = k → ¬(k' = k2) :=
    fun k' hk hq => hne (hq ▸ hk ▸ rfl)
  induction l with
  | nil => simp [setKey, vget, hc k rfl]
  | cons hd t ih =>
      obtain ⟨k', w⟩ := hd
      by_cases h : k' = k
      · simp [setKey, h, vget, hc k rfl]
      · simp [setKey, h, vget, ih]

theorem setKey_self (l : List (String × Value)) (k : String) (v : Value)
    (h : vget l k = some v) : setKey l k v = l := by
  induction l with
  | nil => simp [vget] at h
  | cons hd t ih =>
      obtain ⟨k', w⟩ := hd
      by_cases hk : k' = k
      · subst hk
        simp [vget] at h
        simp [setKey, h]
      · simp [vget, hk] at h
        simp [setKey, hk, ih h]

theorem sdKey_present (l : List (String × Value)) (k : String) (v : Value)
    (h : (vget l k).isSome = true) : sdKey l k v = l := by
  simp [sdKey, h]

theorem isinst_pyTypeOf (v : Value) : isinst v (pyTypeOf v) = true := by
  cases v <;> rfl

theorem vget_fixField_self (m : List (String × Value)) (k : String) (v : Value) :
    ∃ w, vget (fixField m k v) k = some w ∧ isinst w (pyTypeOf v) = true := by
  unfold fixField
  cases h : vget m k with
  | none => exact ⟨v, vget_setKey_self m k v, isinst_pyTypeOf v⟩
  | some w =>
      by_cases hw : isinst w (pyTypeOf v) = true
      · simp only [hw, if_true]
        exact ⟨w, h, hw⟩
      · simp only [hw, if_false, Bool.false_eq_true]
        exact ⟨v, vget_setKey_self m k v, isinst_pyTypeOf v⟩

theorem vget_fixField_ne (m : List (String × Value)) (k k2 : String) (v : Value)
    (hne : k2 ≠ k) : vget (fixField m k v) k2 = vget m k2 := by
  unfold fixField
  cases h : vget m k with
  | none => exact vget_setKey_ne m k k2 v hne
  | some w =>
      by_cases hw : isinst w (pyTypeOf v) = true
      · simp only [hw, if_true]
      · simp only [hw, if_false, Bool.false_eq_true]
        exact vget_setKey_ne m k k2 v hne

theorem fixField_stable (m : List (String × Value)) (k : String) (v w : Value)
    (h : vget m k = some w) (hw : isinst w (pyTypeOf v) = true) : fixField m k v = m := by
  unfold fixField
  rw [h]
  simp [hw]

theorem vget_fixFields_notin (fs : List (String × Value)) :
    ∀ (m : List (String × Value)) (k : String), k ∉ fs.map Prod.fst →
      vget (fixFields m fs) k = vget m k := by
  induction fs with
  | nil => intro m k _; rfl
  | cons hd t ih =>
      intro m k h
      obtain ⟨k1, v1⟩ := hd
      rw [List.map_cons, List.mem_cons] at h
      push_neg at h
      show vget (fixFields (fixField m k1 v1) t) k = vget m k
      rw [ih _ _ h.2, vget_fixField_ne m k1 k v1 h.1]

theorem fixFields_idem (fs : List (String × Value)) :
    (fs.map Prod.fst).Nodup → ∀ m, fixFields (fixFields m fs) fs = fixFields m fs := by
  induction fs with
  | nil => intro _ m; rfl
  | cons hd t ih =>
      intro hnd m
      obtain ⟨k, v⟩ := hd
      rw [List.map_cons, List.nodup_cons] at hnd
      obtain ⟨hk, hnd'⟩ := hnd
      show fixFields (fixField (fixFields (fixField m k v) t) k v) t
        = fixFields (fixField m k v) t
      obtain ⟨w, hw1, hw2⟩ := vget_fixField_self m k v
      have hM : vget (fixFields (fixField m k v) t) k = some w := by
        rw [vget_fixFields_notin t _ _ hk, hw1]
      rw [fixField_stable _ _ _ _ hM hw2]
      exact ih hnd' (fixField m k v)

theorem ensureSections_preserve :
    ∀ (secs : List (String × List (String × Value))) (l l' : List (String × Value)),
      ensureSections l secs = .ok l' →
      ∀ k, k ∉ secs.map Prod.fst → vget l' k = vget l k := by
  intro secs
  induction secs with
  | nil =>
      intro l l' h k _
      unfold ensureSections at h
      injection h with h'
      rw [h']
  | cons hd t ih =>
      intro l l' h k hk
      obtain ⟨s, fs⟩ := hd
      rw [List.map_cons, List.mem_cons] at hk
      push_neg at hk
      unfold ensureSections at h
      split at h
      · next m _ =>
          rw [ih _ _ h k hk.2, vget_setKey_ne l s k _ hk.1]
      · exact absurd h (by simp)

theorem ensureSections_idem :
    ∀ (secs : List (String × List (String × Value))) (l l' : List (String × Value)),
      (secs.map Prod.fst).Nodup →
      (∀ p ∈ secs, (p.2.map Prod.fst).Nodup) →
      ensureSections l secs = .ok l' → ensureSections l' secs = .ok l' := by
  intro secs
  induction secs with
  | nil =>
      intro l l' _ _ _
      rfl
  | cons hd t ih =>
      intro l l' hnd hfld h
      obtain ⟨s, fs⟩ := hd
      rw [List.map_cons, List.nodup_cons] at hnd
      obtain ⟨hs, hnd'⟩ := hnd
      unfold ensureSections at h
      split at h
      · next m _ =>
          have hv : vget l' s = some (.dict (fixFields m fs)) := by
            rw [ensureSections_preserve t _ _ h s hs, vget_setKey_self]
          unfold ensureSections
          rw [hv]
          show ensureSections (setKey l' s (.dict (fixFields (fixFields m fs) fs))) t = .ok l'
          have hfs : (fs.map Prod.fst).Nodup := hfld (s, fs) (by simp)
          rw [fixFields_idem fs hfs m, setKey_self _ _ _ hv]
          exact ih _ _ hnd' (fun p hp => hfld p (List.mem_cons_of_mem _ hp)) h
      · exact absurd h (by simp)

theorem bindOk {α β : Type} (x : Except String α) (f : α → Except String β) (b : β)
    (h : Except.bind x f = .ok b) : ∃ a, x = .ok a ∧ f a = .ok b := by
  cases x with
  | error e => exact Except.noConfusion h
  | ok a => exact ⟨a, rfl, h⟩

theorem scoringPart_shape (l : List (String × Value)) (r : Value) (s : List (String × Int))
    (h : scoringPart l = .ok (r, s)) :
    r = .dict l ∧ s.map Prod.fst =
      ["Performance & Speed", "Security & Compliance", "SEO & Visibility",
       "Mobile Responsiveness", "First Impressions & Branding", "Content Quality",
       "Accessibility"] := by
  unfold scoringPart at h
  iterate 34 obtain ⟨_, _, h⟩ := bindOk _ _ _ h
  injection h with h'
  injection h' with hr hs
  subst hr
  subst hs
  exact ⟨rfl, rfl⟩

theorem nestedSetdefault_id (l m : List (String × Value)) (s k : String) (v : Value)
    (h1 : vget l s = some (.dict m)) (h2 : (vget m k).isSome = true) :
    nestedSetdefault l s k v = .ok l := by
  unfold nestedSetdefault
  simp only [h1]
  rw [sdKey_present m k v h2, setKey_self l s _ h1]

theorem pageSizeFix_id (l m : List (String × Value)) (v : Value)
    (h1 : vget l "performance" = some (.dict m))
    (h2 : vget m "page_size_kb" = some v) (h3 : isNumeric v = true) :
    pageSizeFix l = .ok l := by
  unfold pageSizeFix
  simp [h1, h2, h3]

theorem applyRequired_id (l m p : List (String × Value)) (v : Value)
    (hb : vget l "basic" = some (.dict m))
    (hlt : (vget m "load_time").isSome = true)
    (hp : vget l "performance" = some (.dict p))
    (hps : vget p "page_size_kb" = some v) (hnum : isNumeric v = true)
    (hrq : (vget p "requests").isSome = true) (hdd : (vget p "dom_depth").isSome = true)
    (hse : (vget l "security").isSome = true) (hme : (vget l "meta").isSome = true)
    (hac : (vget l "accessibility").isSome = true) (hre : (vget l "resources").isSome = true) :
    applyRequired l = .ok l := by
  unfold applyRequired
  rw [sdKey_present l "basic" _ (by rw [hb]; rfl)]
  rw [nestedSetdefault_id l m "basic" "load_time" _ hb hlt]
  show Except.bind (pageSizeFix (sdKey l "performance" (.dict []))) _ = _
  rw [sdKey_present l "performance" _ (by rw [hp]; rfl)]
  rw [pageSizeFix_id l p v hp hps hnum]
  show Except.bind (nestedSetdefault l "performance" "requests" (.int 30)) _ = _
  rw [nestedSetdefault_id l p "performance" "requests" _ hp hrq]
  show Except.bind (nestedSetdefault l "performance" "dom_depth" (.int 20)) _ = _
  rw [nestedSetdefault_id l p "performance" "dom_depth" _ hp hdd]
  show Except.ok (sdKey (sdKey (sdKey (sdKey l "security" (.dict []))
    "meta" (.dict [])) "accessibility" (.dict [])) "resources" (.dict [])) = _
  rw [sdKey_present l "security" _ hse, sdKey_present l "meta" _ hme,
    sdKey_present l "accessibility" _ hac, sdKey_present l "resources" _ hre]

/-- Every branch of the if in autoScoreWebsite yields a dict: either the
dict argument itself or the freshly initialized record. -/
theorem dataIsDict (d : Value) (ts : String) :
    ∃ l, (if d.isDict then d else initializeResults ts) = Value.dict l := by
  cases d <;> exact ⟨_, rfl⟩

theorem sectionDictWithKeys_elim (l : List (String × Value)) (s : String) (ks : List String)
    (h : sectionDictWithKeys l s ks = true) :
    ∃ m, vget l s = some (.dict m) ∧ ∀ k ∈ ks, (vget m k).isSome = true := by
  unfold sectionDictWithKeys at h
  split at h
  · next m heq => exact ⟨m, heq, by simpa [List.all_eq_true] using h⟩
  · exact absurd h (by simp)

theorem pageSizeNumeric_elim (l : List (String × Value)) (h : pageSizeNumeric l = true) :
    ∃ m v, vget l "performance" = some (.dict m) ∧ vget m "page_size_kb" = some v ∧
      isNumeric v = true := by
  unfold pageSizeNumeric at h
  split at h
  · next m heq =>
      split at h
      · next v heq2 => exact ⟨m, v, heq, heq2, h⟩
      · exact absurd h (by simp)
  · exact absurd h (by simp)

/-- C1, counterexample: on the freshly initialized record the score set
returned by auto_score_website has the key "Content Quality", which is
not a member of the CATEGORIES catalog - so the returned key set is NOT
a subset of the catalog's key set. -/
theorem score_keys_include_content_quality_cex :
    (autoScoreWebsite (initializeResults "t") "t").map (fun p => p.2.map Prod.fst) =
      .ok ["Performance & Speed", "Security & Compliance", "SEO & Visibility",
           "Mobile Responsiveness", "First Impressions & Branding", "Content Quality",
           "Accessibility"] ∧
    categoryNames.contains "Content Quality" = false :=
  ⟨rfl, by decide⟩

/-- C1, amended: every category name in the ScoreSet returned by
auto_score_website is a member of the catalog's key set EXTENDED BY
"Content Quality" - the scorer emits exactly seven fixed keys, six of
which are in the 8-entry catalog, while "Content Quality" is absent
from it, so a category absent from the catalog does reach report time
(where create_results_dataframe, whose CATEGORIES.get default {} is
itself a dict, takes the dict branch and raises KeyError at
CATEGORIES of that name - its list fallback is unreachable). -/
theorem score_keys_subset_catalog_amended (d : Value) (ts : String) (r : Value)
    (s : List (String × Int)) (h : autoScoreWebsite d ts = .ok (r, s)) :
    (s.map Prod.fst).all (fun k => categoryNames.contains k || k == "Content Quality") = true := by
  obtain ⟨l, hl⟩ := dataIsDict d ts
  unfold autoScoreWebsite at h
  rw [hl] at h
  have h' : Except.bind (applyRequired l) scoringPart = .ok (r, s) := h
  obtain ⟨l', _, h2⟩ := bindOk _ _ _ h'
  obtain ⟨_, hs⟩ := scoringPart_shape l' r s h2
  rw [hs]
  decide

/-- Witness for C1 amended at the freshly initialized record. -/
theorem score_keys_subset_catalog_amended_witness :
    autoScoreWebsite (initializeResults "x") "x" = .ok (initializeResults "x",
      [("Performance & Speed", 4), ("Security & Compliance", 1), ("SEO & Visibility", 1),
       ("Mobile Responsiveness", 1), ("First Impressions & Branding", 2),
       ("Content Quality", 3), ("Accessibility", 1)]) ∧
    (([("Performance & Speed", (4 : Int)), ("Security & Compliance", 1), ("SEO & Visibility", 1),
       ("Mobile Responsiveness", 1), ("First Impressions & Branding", 2),
       ("Content Quality", 3), ("Accessibility", 1)]).map Prod.fst).all
      (fun k => categoryNames.contains k || k == "Content Quality") = true :=
  have h : autoScoreWebsite (initializeResults "x") "x" = .ok (initializeResults "x",
      [("Performance & Speed", 4), ("Security & Compliance", 1), ("SEO & Visibility", 1),
       ("Mobile Responsiveness", 1), ("First Impressions & Branding", 2),
       ("Content Quality", 3), ("Accessibility", 1)]) := rfl
  ⟨h, score_keys_subset_catalog_amended _ _ _ _ h⟩

/-- C2: auto_score_website is NOT total on wrong-typed input - on a
record whose basic.load_time is the string "slow", the internal
sanitization only setdefaults the key (leaving the string in place) and
the comparison load_time < 1.5 raises TypeError, so the call raises
instead of returning scores in [1,5].  This contradicts the function's
own docstring ("Completely safe scoring with comprehensive validation")
and its comment at line 328. -/
theorem auto_score_crashes_on_string_load_time (ts : String) :
    autoScoreWebsite (Value.dict [("basic", Value.dict [("load_time", Value.str "slow")])]) ts
      = .error "TypeError: unsupported comparison" := rfl

set_option maxHeartbeats 2000000 in
/-- C3: for every URL accepted by validate_url, a transport that always
raises a request exception yields a scan with status "success" (not
"error"), performance.page_size_kb forced to 0.0, basic.load_time still
recorded (the elapsed seconds), and an issues entry mentioning the
failure. -/
theorem scan_request_failure_degrades_gracefully (url ts msg : String) (elapsed : ℚ)
    (v : String) (hv : validateUrl url = .ok v) :
    (scanWebsite url ts (fun _ => .requestError msg elapsed)).status = "success" ∧
    getPath (scanWebsite url ts (fun _ => .requestError msg elapsed)).data
      "performance" "page_size_kb" = some (.float 0) ∧
    getPath (scanWebsite url ts (fun _ => .requestError msg elapsed)).data
      "basic" "load_time" = some (.float elapsed) ∧
    getIssues (scanWebsite url ts (fun _ => .requestError msg elapsed)).data
      = some [Value.str ("Request failed: " ++ msg)] := by
  unfold scanWebsite
  rw [hv]
  exact ⟨rfl, rfl, rfl, rfl⟩

/-- Witness for C3 at url "example.com", a transport that times out
after 2 seconds. -/
theorem scan_request_failure_degrades_gracefully_witness :
    validateUrl "example.com" = .ok "https://example.com" ∧
    ((scanWebsite "example.com" "t" (fun _ => .requestError "timed out" 2)).status = "success" ∧
     getPath (scanWebsite "example.com" "t" (fun _ => .requestError "timed out" 2)).data
       "performance" "page_size_kb" = some (.float 0) ∧
     getPath (scanWebsite "example.com" "t" (fun _ => .requestError "timed out" 2)).data
       "basic" "load_time" = some (.float 2) ∧
     getIssues (scanWebsite "example.com" "t" (fun _ => .requestError "timed out" 2)).data
       = some [Value.str "Request failed: timed out"]) :=
  ⟨rfl, scan_request_failure_degrades_gracefully "example.com" "t" "timed out" 2
    "https://example.com" rfl⟩

/-- C4: the sanitizer ensure_defaults is idempotent on every input
value, malformed ones included: running it on its own output returns
that output unchanged (in the exception monad, binding it after itself
is the same computation). -/
theorem ensure_defaults_idempotent (r : Value) :
    Except.bind (ensureDefaults r) ensureDefaults = ensureDefaults r := by
  cases r with
  | dict l =>
      cases hE : ensureSections l edDefaults with
      | error e =>
          have hL : ensureDefaults (Value.dict l) = .error e := by
            unfold ensureDefaults; simp only [hE]
          rw [hL]
          rfl
      | ok l' =>
          have hL : ensureDefaults (Value.dict l) = .ok (Value.dict l') := by
            unfold ensureDefaults; simp only [hE]
          rw [hL]
          show ensureDefaults (Value.dict l') = Except.ok (Value.dict l')
          unfold ensureDefaults
          simp only [ensureSections_idem edDefaults l l' (by decide) (by decide) hE]
  | none => rfl
  | bool b => rfl
  | int n => rfl
  | float q => rfl
  | str s => rfl
  | list xs => rfl

/-- C5: the scoring threshold boundaries are exact and ties resolve to
the lower bracket - a load_time of exactly 1.5 contributes +3 (not +4)
to the performance accumulator, and a page_size_kb of exactly 300
contributes +1 (not +2). -/
theorem performance_threshold_boundaries_exact :
    loadTimePoints (Value.float (mkRat 3 2)) = .ok 3 ∧
    pageSizePoints (Value.float 300) = .ok 1 :=
  ⟨rfl, rfl⟩

/-- C6, counterexample: the whitespace-only input "   " is blank after
trimming, yet validate_url rejects it with the MalformedURL error
"Invalid URL structure" rather than the EmptyInput error "URL cannot be
empty" - because the emptiness check runs BEFORE strip(), and the
stripped string is then prefixed to "https://", which has an empty
netloc. -/
theorem whitespace_url_not_empty_input_cex :
    validateUrl "   " = .error "Invalid URL: Invalid URL structure" ∧
    "Invalid URL: Invalid URL structure" ≠ "URL cannot be empty" :=
  ⟨rfl, by decide⟩

/-- C6, amended: validate_url rejects every input that is blank after
trimming, but only the genuinely empty string gets the EmptyInput error
(raised before trimming); whitespace-only strings fail with the
MalformedURL error "Invalid URL structure". -/
theorem blank_url_rejected_amended (s : String) (h : pyStrip s = "") :
    validateUrl s = .error
      (if s = "" then "URL cannot be empty" else "Invalid URL: Invalid URL structure") := by
  by_cases hs : s = ""
  · subst hs; rfl
  · rw [if_neg hs]
    unfold validateUrl
    rw [if_neg hs, h]
    rfl

/-- Witness for C6 amended at the one-space string. -/
theorem blank_url_rejected_amended_witness :
    pyStrip " " = "" ∧ validateUrl " " = .error "Invalid URL: Invalid URL structure" := by
  refine ⟨rfl, ?_⟩
  have h := blank_url_rejected_amended " " rfl
  rwa [if_neg (by decide)] at h

/-- C7, counterexample: auto_score_website does NOT leave the input
record unchanged - on the empty record it inserts basic.load_time = 8.0
(among other defaults) into the record it hands back, a field the input
did not have. -/
theorem auto_score_mutates_input_cex :
    (autoScoreWebsite (Value.dict []) "x").map (fun p => getPath p.1 "basic" "load_time")
      = .ok (some (Value.float 8)) ∧
    getPath (Value.dict []) "basic" "load_time" = Option.none ∧
    (some (Value.float 8) : Option Value) ≠ Option.none :=
  ⟨rfl, rfl, fun hh => Option.noConfusion hh⟩

/-- C7, amended: auto_score_website performs no I/O and is
deterministic (it is a pure function of the record here), but it
mutates its input record in place: missing sections and missing
defaulted fields are inserted and a wrong-typed page_size_kb is
overwritten.  On any record that already carries all the sections and
fields the defaults loop could touch (with a numeric page_size_kb), a
successful call hands back the record unchanged. -/
theorem auto_score_frame_amended (d : Value) (ts : String) (r : Value)
    (s : List (String × Int)) (hsk : hasScoringSkeleton d = true)
    (h : autoScoreWebsite d ts = .ok (r, s)) : r = d := by
  cases d with
  | dict l =>
      have h' : Except.bind (applyRequired l) scoringPart = .ok (r, s) := h
      unfold hasScoringSkeleton at hsk
      simp only [Bool.and_eq_true] at hsk
      obtain ⟨⟨⟨⟨⟨⟨h1, h2⟩, h3⟩, h4⟩, h5⟩, h6⟩, h7⟩ := hsk
      obtain ⟨m, hbm, hbk⟩ := sectionDictWithKeys_elim l "basic" _ h1
      obtain ⟨p, hpm, hpk⟩ := sectionDictWithKeys_elim l "performance" _ h2
      obtain ⟨p2, v, hp2, hps, hnum⟩ := pageSizeNumeric_elim l h3
      rw [hpm] at hp2
      injection hp2 with hpv
      injection hpv with hpe
      rw [← hpe] at hps
      have hid := applyRequired_id l m p v hbm (hbk "load_time" (by simp)) hpm hps hnum
        (hpk "requests" (by simp)) (hpk "dom_depth" (by simp)) h4 h5 h6 h7
      rw [hid] at h'
      obtain ⟨hr, _⟩ := scoringPart_shape l r s h'
      exact hr
  | none => exact Bool.noConfusion hsk
  | bool b => exact Bool.noConfusion hsk
  | int n => exact Bool.noConfusion hsk
  | float q => exact Bool.noConfusion hsk
  | str s2 => exact Bool.noConfusion hsk
  | list xs => exact Bool.noConfusion hsk

/-- Witness for C7 amended: the freshly initialized record has the full
skeleton, scoring it succeeds, and (by the frame theorem) the record
comes back unchanged. -/
theorem auto_score_frame_amended_witness :
    hasScoringSkeleton (initializeResults "x") = true ∧
    autoScoreWebsite (initializeResults "x") "x" = .ok (initializeResults "x",
      [("Performance & Speed", 4), ("Security & Compliance", 1), ("SEO & Visibility", 1),
       ("Mobile Responsiveness", 1), ("First Impressions & Branding", 2),
       ("Content Quality", 3), ("Accessibility", 1)]) :=
  have h : autoScoreWebsite (initializeResults "x") "x" = .ok (initializeResults "x",
      [("Performance & Speed", 4), ("Security & Compliance", 1), ("SEO & Visibility", 1),
       ("Mobile Responsiveness", 1), ("First Impressions & Branding", 2),
       ("Content Quality", 3), ("Accessibility", 1)]) := rfl
  have _ : (initializeResults "x" : Value) = initializeResults "x" :=
    auto_score_frame_amended (initializeResults "x") "x" _ _ rfl h
  ⟨rfl, h⟩

/-- C8: on a record whose meta has title "", a description of length
100, viewport true, canonical "" and empty og_tags, auto_score_website
assigns SEO & Visibility the score 4 = 1 (base) + 0 (title) + 2
(description) + 1 (viewport) + 0 (canonical) + 0 (og_tags). -/
theorem seo_scenario_score_four :
    (autoScoreWebsite (Value.dict [("meta", Value.dict
      [("title", Value.str ""), ("description", Value.str (String.mk (List.replicate 100 'a'))),
       ("viewport", Value.bool true), ("canonical", Value.str ""),
       ("og_tags", Value.dict [])])]) "t").map
      (fun p => scoreOf p.2 "SEO & Visibility") = .ok (some 4) := rfl

/-- C9: ensure_defaults checks isinstance(value, type(default)) - an
int 2 stored in basic.load_time (whose default is the float 0.0) is
wrong-typed and reset to 0.0, losing the measured value, while the bool
True stored in resources.stylesheets (whose default is the int 0)
passes the check, because bool is a subclass of int, and is preserved:
after sanitization integer fields may still hold booleans. -/
theorem ensure_defaults_isinstance_exact_types :
    (ensureDefaults (Value.dict [("basic", Value.dict [("load_time", Value.int 2)]),
        ("resources", Value.dict [("stylesheets", Value.bool true)])])).toOption.bind
      (fun r => getPath r "basic" "load_time") = some (Value.float 0) ∧
    (ensureDefaults (Value.dict [("basic", Value.dict [("load_time", Value.int 2)]),
        ("resources", Value.dict [("stylesheets", Value.bool true)])])).toOption.bind
      (fun r => getPath r "resources" "stylesheets") = some (Value.bool true) :=
  ⟨rfl, rfl⟩

/-- C10: validate_url is not idempotent - on the URL
https://example.com/?a=1&b=2 a second application re-escapes the
ampersand produced by the first (html.escape turns the & of &amp; into
&amp;amp;), and since scan_website re-validates the URL the route
handler already validated, the URL handed to the transport is the
twice-escaped one, different from the single-validation output (the
last conjunct runs the scan with a transport that echoes the URL it was
asked to fetch). -/
theorem validate_url_not_idempotent :
    validateUrl "https://example.com/?a=1&b=2" = .ok "https://example.com/?a=1&amp;b=2" ∧
    validateUrl "https://example.com/?a=1&amp;b=2" = .ok "https://example.com/?a=1&amp;amp;b=2" ∧
    "https://example.com/?a=1&amp;amp;b=2" ≠ "https://example.com/?a=1&amp;b=2" ∧
    getIssues (scanWebsite "https://example.com/?a=1&amp;b=2" "t"
        (fun u => .requestError u 0)).data
      = some [Value.str "Request failed: https://example.com/?a=1&amp;amp;b=2"] :=
  ⟨rfl, rfl, by decide, rfl⟩
